import Mathlib

/-!
Shallow embedding of the authentication / authorization and registration
layer of the aaghaaz_tech_backend repository.

Sources embedded:
  * src/middleware/roleAuth.mjs  (checkRole and the role-specific gates)
  * src/middleware/auth.mjs      (isAuthenticated, isTeacher, isAdmin)
  * src/routes/auth.mjs          (user register, login, login/verify-2fa,
                                  2fa/verify)
  * src/routes/student.mjs       (student register with the best-effort
                                  ID-card/email block, student login)
  * src/models/Student.mjs       (canAccessAccount, status enum)

External collaborators (the jsonwebtoken signing/verification library,
bcrypt, JSON.parse, speakeasy TOTP check, the Cloudinary upload adapter,
the mail transport) are modelled as explicit data or function parameters,
mirroring the contracts the route handlers rely on.
-/

namespace Aaghaaz

/-- JWT claims payload as built by the route handlers: a user token carries
`userId`, a student token carries `studentId`; the mid-login pending token
additionally carries `requires2FA: true`.  An absent field is `none`
(respectively `false` for the boolean flag, matching JS truthiness of
`undefined`). -/
structure Claims where
  userId : Option String := none
  studentId : Option String := none
  role : Option String := none
  email : Option String := none
  requires2FA : Bool := false
deriving DecidableEq

/-- The two failure kinds raised by `jwt.verify` in the jsonwebtoken
library: a malformed structure or bad signature raises `JsonWebTokenError`,
a token past its `exp` raises `TokenExpiredError`. -/
inductive VerifyError where
  | jsonWebTokenError
  | tokenExpiredError
deriving DecidableEq

/-- A structurally valid signed token: payload plus the issued-at and
expiry timestamps (seconds) and the key it was signed with. -/
structure SignedToken where
  payload : Claims
  iat : Nat
  exp : Nat
  key : String
deriving DecidableEq

/-- An inbound token string is either garbage (malformed structure or a
signature that matches no key) or a well-formed signed token. -/
inductive JwtInput where
  | malformed (raw : String)
  | signed (t : SignedToken)
deriving DecidableEq

/-- `jwt.sign(payload, key, \x7b expiresIn: ttl \x7d)`: stamps `iat = now`
and `exp = now + ttl`. -/
def jwtSign (payload : Claims) (key : String) (ttl : Nat) (now : Nat) : SignedToken :=
  { payload := payload, iat := now, exp := now + ttl, key := key }

/-- `jwt.verify(token, key)` at clock time `now`: signature is checked
first (mismatch or malformed input raises `JsonWebTokenError`), then
expiry (`now >= exp` raises `TokenExpiredError`), and on success the
decoded payload is returned. -/
def jwtVerify (tok : JwtInput) (key : String) (now : Nat) : Except VerifyError Claims :=
  match tok with
  | .malformed _ => .error .jsonWebTokenError
  | .signed t =>
    if t.key ≠ key then .error .jsonWebTokenError
    else if t.exp ≤ now then .error .tokenExpiredError
    else .ok t.payload

/-- `process.env.JWT_SECRET || '121212'`: the configured secret when it is
set and non-empty (JS `||` treats the empty string as falsy), otherwise the
hardcoded default key. -/
def envKey (jwtSecret : Option String) : String :=
  match jwtSecret with
  | some s => if s = "" then "121212" else s
  | none => "121212"

/-- `expiresIn: '24h'` in seconds. -/
def hours24 : Nat := 24 * 60 * 60

/-- `expiresIn: '5m'` in seconds. -/
def minutes5 : Nat := 5 * 60

/-- JS `a || b` on optional strings: `a` when present and non-empty,
otherwise `b`. -/
def jsOr (a b : Option String) : Option String :=
  match a with
  | some s => if s = "" then b else some s
  | none => b

/-- JS `v || d` collapsing to a default string. -/
def jsOrDefault (v : Option String) (d : String) : String :=
  match v with
  | some s => if s = "" then d else s
  | none => d

/-- The identity the gates attach to the request:
`req.user = \x7b _id: decoded.userId || decoded.studentId, role: decoded.role,
email: decoded.email \x7d`. -/
structure AuthedUser where
  id : Option String
  role : Option String
  email : Option String
deriving DecidableEq

/-- Builds `req.user` from the decoded claims. -/
def resolvedUser (c : Claims) : AuthedUser :=
  { id := jsOr c.userId c.studentId, role := c.role, email := c.email }

/-- Outcome of a middleware gate: either an immediate HTTP response or
`next()` with the resolved identity attached to the request. -/
inductive GateOutcome where
  | respond (status : Nat) (message : String)
  | next (user : AuthedUser)
deriving DecidableEq

/-- `roles.includes(decoded.role)`: membership of the decoded role in the
gate's role list; an absent role is never a member. -/
def roleMember (roles : List String) (r : Option String) : Bool :=
  match r with
  | some s => roles.contains s
  | none => false

/-- `checkRole(roles)` from src/middleware/roleAuth.mjs: missing bearer
token gives 401, a verification failure is branched by error kind
(`JsonWebTokenError` gives 401 Invalid token, `TokenExpiredError` gives
401 Token expired), a decoded role outside `roles` gives 403 naming the
acceptable roles, and otherwise the request proceeds with the resolved
identity. -/
def checkRole (roles : List String) (authToken : Option JwtInput)
    (jwtSecret : Option String) (now : Nat) : GateOutcome :=
  match authToken with
  | none => .respond 401 "Authentication required"
  | some tok =>
    match jwtVerify tok (envKey jwtSecret) now with
    | .error .jsonWebTokenError => .respond 401 "Invalid token"
    | .error .tokenExpiredError => .respond 401 "Token expired"
    | .ok decoded =>
      if roleMember roles decoded.role then .next (resolvedUser decoded)
      else .respond 403 ("Access denied. Required role: " ++ String.intercalate " or " roles)

/-- `isAuthenticated` from src/middleware/auth.mjs: its catch block maps
EVERY verification failure, expired tokens included, to 401 Invalid
token. -/
def isAuthenticated (authToken : Option JwtInput) (jwtSecret : Option String)
    (now : Nat) : GateOutcome :=
  match authToken with
  | none => .respond 401 "Authentication required"
  | some tok =>
    match jwtVerify tok (envKey jwtSecret) now with
    | .error _ => .respond 401 "Invalid token"
    | .ok decoded => .next (resolvedUser decoded)

/-- `isTeacher` from src/middleware/auth.mjs: like `isAuthenticated` but
rejects with 403 when the decoded role is not the teacher role; the catch
block again collapses every verification failure to 401 Invalid token. -/
def isTeacher (authToken : Option JwtInput) (jwtSecret : Option String)
    (now : Nat) : GateOutcome :=
  match authToken with
  | none => .respond 401 "Authentication required"
  | some tok =>
    match jwtVerify tok (envKey jwtSecret) now with
    | .error _ => .respond 401 "Invalid token"
    | .ok decoded =>
      if decoded.role = some "teacher" then .next (resolvedUser decoded)
      else .respond 403 "Teacher access required"

/-- `isAdmin` from src/middleware/auth.mjs, same shape with the admin
role. -/
def isAdmin (authToken : Option JwtInput) (jwtSecret : Option String)
    (now : Nat) : GateOutcome :=
  match authToken with
  | none => .respond 401 "Authentication required"
  | some tok =>
    match jwtVerify tok (envKey jwtSecret) now with
    | .error _ => .respond 401 "Invalid token"
    | .ok decoded =>
      if decoded.role = some "admin" then .next (resolvedUser decoded)
      else .respond 403 "Admin access required"

/-- Model of the bcrypt adapter contract: hashing is an opaque injective
one-way wrapper, and `bcrypt.compare(plain, hashed)` succeeds exactly when
`hashed` is the hash of `plain`. -/
structure Hashed where
  plain : String
deriving DecidableEq

/-- `bcrypt.hash(plain, salt)` as the adapter contract sees it. -/
def bcryptHash (p : String) : Hashed := ⟨p⟩

/-- `bcrypt.compare(plain, hashed)`. -/
def bcryptCompare (p : String) (h : Hashed) : Bool := h.plain = p

/-- The student status enum from src/models/Student.mjs:
`enum: [Pending, Enrolled, Eliminated, Suspended]`. -/
inductive StudentStatus where
  | pending
  | enrolled
  | eliminated
  | suspended
deriving DecidableEq

/-- `studentSchema.methods.canAccessAccount`:
`return [Enrolled].includes(this.status)`. -/
def canAccessAccount (s : StudentStatus) : Bool :=
  [StudentStatus.enrolled].contains s

/-- The nested address object of the student schema; the tolerant-parse
default sets every field to the empty string. -/
structure Address where
  street : String := ""
  city : String := ""
  state : String := ""
  zipCode : String := ""
  country : String := ""
deriving DecidableEq

/-- The all-empty default address substituted when address JSON parsing
fails during registration. -/
def emptyAddress : Address :=
  { street := "", city := "", state := "", zipCode := "", country := "" }

/-- A student-course enrollment entry as built by the register handler:
`\x7b courseId, enrollmentDate: new Date(), status: Active \x7d`. -/
structure Enrollment where
  courseId : String
  enrollmentDate : Nat
  status : String
deriving DecidableEq

/-- A persisted Student document (the fields the embedded handlers read or
write). -/
structure Student where
  id : String
  firstName : String
  lastName : String
  email : String
  password : Hashed
  cnic : String
  phoneNumber : String
  gender : String
  address : Option Address
  guardianName : String
  guardianPhone : String
  guardianRelation : String
  enrolledCourses : List Enrollment
  status : StudentStatus
  profilePicture : String
  rollId : String
deriving DecidableEq

/-- Response of `POST /api/students/login`. -/
structure StudentLoginResult where
  status : Nat
  message : String
  token : Option SignedToken
deriving DecidableEq

/-- `POST /api/students/login` from src/routes/student.mjs: find the
student by email, compare the password with bcrypt, gate on
`canAccessAccount()` (403 when the status is not Enrolled), and only then
sign a 24-hour token carrying `studentId` and the student role. -/
def studentLogin (db : List Student) (email password : String)
    (jwtSecret : Option String) (now : Nat) : StudentLoginResult :=
  match db.find? (fun s => s.email == email) with
  | none => ⟨401, "Invalid credentials", none⟩
  | some student =>
    if ¬ bcryptCompare password student.password then
      ⟨401, "Invalid credentials", none⟩
    else if ¬ canAccessAccount student.status then
      ⟨403, "Your account is not active. Please contact the administration for more information.", none⟩
    else
      ⟨200, "Login successful",
        some (jwtSign { studentId := some student.id, role := some "student" }
          (envKey jwtSecret) hours24 now)⟩

/-- The user location sub-object of the User schema. -/
structure Location where
  city : String := ""
  country : String := ""
deriving DecidableEq

/-- A persisted User document (the fields the embedded handlers read or
write). -/
structure User where
  id : String
  firstName : String
  lastName : String
  email : String
  password : Hashed
  cnic : String
  phoneNumber : String
  role : String
  expertise : List String := []
  languages : List String := []
  location : Option Location := none
  qualification : String := ""
  profilePicture : String := ""
  twoFactorSecret : Option String := none
  twoFactorEnabled : Bool := false
deriving DecidableEq

/-- Response of `POST /api/auth/login` and `POST /api/auth/login/verify-2fa`:
at most one of `tempToken` (the 5-minute pending token) and `token` (the
full 24-hour session token) is present. -/
structure AuthLoginResult where
  status : Nat
  message : String
  requires2FA : Bool
  tempToken : Option SignedToken
  token : Option SignedToken
deriving DecidableEq

/-- `POST /api/auth/login` from src/routes/auth.mjs: find by email,
bcrypt-compare; when `twoFactorEnabled` is set return 200 with a 5-minute
temporary token carrying `requires2FA: true` and no full token; otherwise
sign the full 24-hour session token. -/
def authLogin (db : List User) (email password : String)
    (jwtSecret : Option String) (now : Nat) : AuthLoginResult :=
  match db.find? (fun u => u.email == email) with
  | none => ⟨401, "Invalid credentials", false, none, none⟩
  | some user =>
    if ¬ bcryptCompare password user.password then
      ⟨401, "Invalid credentials.", false, none, none⟩
    else if user.twoFactorEnabled then
      let payload : Claims :=
        { userId := some user.id, role := some user.role,
          email := some user.email, requires2FA := true }
      ⟨200, "2FA verification required", true,
        some (jwtSign payload (envKey jwtSecret) minutes5 now), none⟩
    else
      let payload : Claims :=
        { userId := some user.id, role := some user.role, email := some user.email }
      ⟨200, "Login successful", false, none,
        some (jwtSign payload (envKey jwtSecret) hours24 now)⟩

/-- `User.findById(decoded.userId)`: an absent id claim finds nothing. -/
def findUserById (db : List User) (uid : Option String) : Option User :=
  match uid with
  | none => none
  | some i => db.find? (fun u => u.id == i)

/-- `POST /api/auth/login/verify-2fa` from src/routes/auth.mjs: requires
both fields, verifies the temporary token (any `jwt.verify` throw lands in
the catch block as a 500 with no token), requires the decoded
`requires2FA` marker, loads the user, checks the submitted code against
the stored secret via the TOTP collaborator (`speakeasy.totp.verify` with
window 6), and only then signs the full 24-hour session token. -/
def verify2fa (db : List User) (tempToken : Option JwtInput) (code : Option String)
    (totpCheck : Option String → String → Bool)
    (jwtSecret : Option String) (now : Nat) : AuthLoginResult :=
  match tempToken with
  | none => ⟨400, "Missing required fields", false, none, none⟩
  | some tok =>
    match code with
    | none => ⟨400, "Missing required fields", false, none, none⟩
    | some c =>
      if c = "" then ⟨400, "Missing required fields", false, none, none⟩
      else
        match jwtVerify tok (envKey jwtSecret) now with
        | .error _ => ⟨500, "Error verifying 2FA", false, none, none⟩
        | .ok decoded =>
          if ¬ decoded.requires2FA then ⟨400, "Invalid token", false, none, none⟩
          else
            match findUserById db decoded.userId with
            | none => ⟨404, "User not found", false, none, none⟩
            | some user =>
              if ¬ totpCheck user.twoFactorSecret c then
                ⟨400, "Invalid verification code", false, none, none⟩
              else
                let payload : Claims :=
                  { userId := some user.id, role := some user.role, email := some user.email }
                ⟨200, "Login successful", false, none,
                  some (jwtSign payload (envKey jwtSecret) hours24 now)⟩

/-- A bare status/message HTTP response. -/
structure SimpleResult where
  status : Nat
  message : String
deriving DecidableEq

/-- `POST /api/auth/2fa/verify` from src/routes/auth.mjs: this endpoint
calls `jwt.verify(token, 121212)` with the LITERAL default key — it never
reads the configured secret (`jwtSecret` is accepted here only to state
that the behaviour is independent of it).  A verification throw lands in
the catch block as a 500; a missing code makes `code.toString()` throw,
also a 500. -/
def twoFaVerifyEnable (db : List User) (authToken : Option JwtInput)
    (code : Option String) (totpCheck : Option String → String → Bool)
    (jwtSecret : Option String) (now : Nat) : SimpleResult :=
  match authToken with
  | none => ⟨401, "No token provided"⟩
  | some tok =>
    match jwtVerify tok "121212" now with
    | .error _ => ⟨500, "Error enabling 2FA"⟩
    | .ok decoded =>
      match findUserById db decoded.userId with
      | none => ⟨404, "User not found"⟩
      | some user =>
        match code with
        | none => ⟨500, "Error enabling 2FA"⟩
        | some c =>
          if ¬ totpCheck user.twoFactorSecret c then ⟨400, "Invalid verification code"⟩
          else ⟨200, "2FA enabled successfully"⟩

/-- A multipart body field that may arrive as an encoded JSON string, as an
already-structured value, or be missing (`typeof x === string` dispatch in
the handlers). -/
inductive JsField (α : Type) where
  | str (s : String)
  | val (v : α)
  | missing
deriving DecidableEq

/-- An uploaded file as multer memory storage presents it. -/
structure ImageFile where
  buffer : List Nat
  mimetype : String
deriving DecidableEq

/-- The tolerant address parse of the student register handler: a string is
fed to `JSON.parse` (modelled by the `jsonAddr` collaborator) and a parse
failure is replaced by the all-empty address object instead of failing;
a structured value passes through; a missing field stays absent. -/
def parseAddressField (jsonAddr : String → Option Address) :
    JsField Address → Option Address
  | .str s =>
    match jsonAddr s with
    | some a => some a
    | none => some emptyAddress
  | .val a => some a
  | .missing => none

/-- The strict parse used by the user register handler for expertise,
languages and location: `JSON.parse` on a string, where a parse failure
throws and lands in the outer catch block. -/
def parseStrictField {α : Type} (p : String → Option α) :
    JsField α → Except String (Option α)
  | .str s =>
    match p s with
    | some v => .ok (some v)
    | none => .error "Unexpected token in JSON"
  | .val v => .ok (some v)
  | .missing => .ok none

/-- `Course.find(\x7b _id: \x7b $in: courseIds \x7d \x7d)` validation: the
number of catalog courses whose id occurs in `courseIds` must equal the
number of submitted ids, else the handler returns the
courses-do-not-exist 400. -/
def validateCourses (courseDb : List String) (ids : List String) :
    Except String (List String) :=
  if (courseDb.filter (fun c => ids.contains c)).length ≠ ids.length then
    .error "One or more selected courses do not exist"
  else .ok ids

/-- The enrolled-courses parse step of the student register handler: a
missing field yields no enrollments; a string is `JSON.parse`d (failure is
caught as the invalid-format 400); either way the ids are then validated
against the catalog. -/
def parseCoursesStep (courseDb : List String)
    (jsonCourses : String → Option (List String)) :
    JsField (List String) → Except String (List String)
  | .missing => .ok []
  | .str s =>
    match jsonCourses s with
    | none => .error "Invalid course selection format"
    | some ids => validateCourses courseDb ids
  | .val ids => validateCourses courseDb ids

/-- The multipart body of `POST /api/students/register`. -/
structure StudentRegInput where
  firstName : String
  lastName : String
  email : String
  password : String
  cnic : String
  phoneNumber : String
  gender : String
  address : JsField Address
  guardianName : String
  guardianPhone : String
  guardianRelation : String
  enrolledCourses : JsField (List String)
  file : Option ImageFile
deriving DecidableEq

/-- `Student.findOne(\x7b $or: [\x7b email \x7d, \x7b cnic \x7d] \x7d)`. -/
def dupStudent (db : List Student) (email cnic : String) : Option Student :=
  db.find? (fun s => s.email == email || s.cnic == cnic)

/-- Outcome of the student register handler up to (and including) the
`student.save()` call: an error response, or the saved student document.
The best-effort ID-card/email block runs strictly after this point. -/
inductive RegCoreOutcome where
  | err (status : Nat) (message : String)
  | ok (student : Student)
deriving DecidableEq

/-- The student register flow before the ID-card block, in source order:
tolerant address parse, enrolled-courses parse/validation (400 on
failure), duplicate check naming the colliding field (400), Cloudinary
upload of the optional image (a throw lands in the outer catch as the 500
registering-error response, before any save), best-effort compression,
bcrypt hash, and construction of the Pending student document that
`student.save()` persists. -/
def registerStudentCore (db : List Student) (courseDb : List String)
    (input : StudentRegInput) (jsonAddr : String → Option Address)
    (jsonCourses : String → Option (List String))
    (uploadImg : ImageFile → Except String String)
    (compress : String → String) (now : Nat) (newId rollId : String) :
    RegCoreOutcome :=
  let parsedAddress := parseAddressField jsonAddr input.address
  match parseCoursesStep courseDb jsonCourses input.enrolledCourses with
  | .error msg => .err 400 msg
  | .ok courseIds =>
    match dupStudent db input.email input.cnic with
    | some existing =>
      .err 400 (if existing.email = input.email then "Email already registered"
        else "CNIC already registered")
    | none =>
      let uploaded : Except String String :=
        match input.file with
        | some f => uploadImg f
        | none => .ok ""
      match uploaded with
      | .error _ => .err 500 "Error registering student"
      | .ok url =>
        let compressed := if url = "" then url else compress url
        .ok { id := newId, firstName := input.firstName, lastName := input.lastName,
              email := input.email, password := bcryptHash input.password,
              cnic := input.cnic, phoneNumber := input.phoneNumber,
              gender := input.gender, address := parsedAddress,
              guardianName := input.guardianName, guardianPhone := input.guardianPhone,
              guardianRelation := input.guardianRelation,
              enrolledCourses := courseIds.map (fun cid => ⟨cid, now, "Active"⟩),
              status := .pending, profilePicture := compressed, rollId := rollId }

deriving instance DecidableEq for Except

/-- Outcomes of the external collaborators used inside the ID-card/email
block: jsPDF document rendering, QR-code rendering, the SMTP
`transporter.verify()` probe, and `transporter.sendMail`. -/
structure SideFx where
  pdfRender : Except String Unit
  qrRender : Except String String
  smtpVerify : Except String Unit
  sendMailResult : Except String Unit
deriving DecidableEq

/-- A run of the ID-card block in which every collaborator succeeds. -/
def sideFxOk : SideFx :=
  { pdfRender := .ok (), qrRender := .ok "qr-data-url",
    smtpVerify := .ok (), sendMailResult := .ok () }

/-- The inner ID-card/email block of the student register handler, as a
fallible computation: a jsPDF failure throws; a QR rendering failure is
caught by its own nested try/catch and only logged (the PDF is still
produced without the QR image); an SMTP verification failure is rethrown
as an SMTP-configuration error; a sendMail failure is rethrown as a
failed-to-send error.  Whatever this returns is swallowed by the
enclosing catch in the handler. -/
def runIdCardBlock (fx : SideFx) : Except String Unit :=
  match fx.pdfRender with
  | .error e => .error e
  | .ok _ =>
    let _qrImage : String :=
      match fx.qrRender with
      | .ok dataUrl => dataUrl
      | .error _ => ""
    match fx.smtpVerify with
    | .error e => .error ("SMTP configuration error: " ++ e)
    | .ok _ =>
      match fx.sendMailResult with
      | .error e => .error ("Failed to send email: " ++ e)
      | .ok _ => .ok ()

/-- The sanitized student view in the 201 response body (no password, no
enrollments). -/
structure StudentView where
  id : String
  firstName : String
  lastName : String
  email : String
  cnic : String
  phoneNumber : String
  gender : String
  address : Option Address
  guardianName : String
  guardianPhone : String
  guardianRelation : String
  status : StudentStatus
  profilePicture : String
  rollId : String
deriving DecidableEq

/-- Projection of the saved student into the response body. -/
def studentView (s : Student) : StudentView :=
  { id := s.id, firstName := s.firstName, lastName := s.lastName,
    email := s.email, cnic := s.cnic, phoneNumber := s.phoneNumber,
    gender := s.gender, address := s.address, guardianName := s.guardianName,
    guardianPhone := s.guardianPhone, guardianRelation := s.guardianRelation,
    status := s.status, profilePicture := s.profilePicture, rollId := s.rollId }

/-- The HTTP response of `POST /api/students/register`. -/
structure StudentRegResponse where
  status : Nat
  message : String
  student : Option StudentView
deriving DecidableEq

/-- The observable outcome of `POST /api/students/register`: the HTTP
response, the resulting student collection, and whether the ID-card email
actually went out. -/
structure StudentRegResult where
  response : StudentRegResponse
  newDb : List Student
  emailSent : Bool
deriving DecidableEq

/-- The 201 message of the student register handler. -/
def studentRegSuccessMsg : String :=
  "Registered successfully. You are in pending approval. so please go to the campus office to get your card and verify!"

/-- `POST /api/students/register` from src/routes/student.mjs: runs the
core flow; on an error outcome the collection is untouched and the error
response is returned; on success the student is saved, then the ID-card
block runs with its result caught and logged (failure only means no email
went out), and the 201 response with the sanitized view is returned
regardless. -/
def registerStudent (db : List Student) (courseDb : List String)
    (input : StudentRegInput) (jsonAddr : String → Option Address)
    (jsonCourses : String → Option (List String))
    (uploadImg : ImageFile → Except String String)
    (compress : String → String) (fx : SideFx) (now : Nat)
    (newId rollId : String) : StudentRegResult :=
  match registerStudentCore db courseDb input jsonAddr jsonCourses uploadImg
      compress now newId rollId with
  | .err st msg => ⟨⟨st, msg, none⟩, db, false⟩
  | .ok student =>
    let emailSent :=
      match runIdCardBlock fx with
      | .ok _ => true
      | .error _ => false
    ⟨⟨201, studentRegSuccessMsg, some (studentView student)⟩, db ++ [student], emailSent⟩

/-- The multipart body of `POST /api/auth/register`. -/
structure UserRegInput where
  firstName : String
  lastName : String
  email : String
  password : String
  cnic : String
  phoneNumber : String
  expertise : JsField (List String)
  languages : JsField (List String)
  location : JsField Location
  qualification : String
  role : Option String
  file : Option ImageFile
deriving DecidableEq

/-- `User.findOne(\x7b $or: [\x7b email \x7d, \x7b cnic \x7d] \x7d)`. -/
def dupUser (db : List User) (email cnic : String) : Option User :=
  db.find? (fun u => u.email == email || u.cnic == cnic)

/-- The HTTP response and resulting collection of `POST /api/auth/register`. -/
structure UserRegResult where
  status : Nat
  message : String
  token : Option SignedToken
  newDb : List User
deriving DecidableEq

/-- `POST /api/auth/register` from src/routes/auth.mjs: strict JSON parse
of expertise/languages/location (a throw lands in the catch as the 500
registering-error response), duplicate check naming the colliding field
(400), Cloudinary upload of the optional image (a throw is again the 500,
before any save), creation of the user (the schema pre-save hook hashes
the password; `role || user` defaults the role), `user.save()`, and a
24-hour token signed with the configured-or-default key in the 201
response. -/
def registerUser (db : List User) (input : UserRegInput)
    (jsonList : String → Option (List String))
    (jsonLoc : String → Option Location)
    (uploadImg : ImageFile → Except String String)
    (jwtSecret : Option String) (now : Nat) (newId : String) : UserRegResult :=
  match parseStrictField jsonList input.expertise with
  | .error _ => ⟨500, "Error registering user", none, db⟩
  | .ok expertiseV =>
    match parseStrictField jsonList input.languages with
    | .error _ => ⟨500, "Error registering user", none, db⟩
    | .ok languagesV =>
      match parseStrictField jsonLoc input.location with
      | .error _ => ⟨500, "Error registering user", none, db⟩
      | .ok locationV =>
        match dupUser db input.email input.cnic with
        | some existing =>
          ⟨400, (if existing.email = input.email then "Email already registered"
            else "CNIC already registered"), none, db⟩
        | none =>
          let uploaded : Except String String :=
            match input.file with
            | some f => uploadImg f
            | none => .ok ""
          match uploaded with
          | .error _ => ⟨500, "Error registering user", none, db⟩
          | .ok url =>
            let user : User :=
              { id := newId, firstName := input.firstName, lastName := input.lastName,
                email := input.email, password := bcryptHash input.password,
                cnic := input.cnic, phoneNumber := input.phoneNumber,
                role := jsOrDefault input.role "user",
                expertise := expertiseV.getD [], languages := languagesV.getD [],
                location := locationV, qualification := input.qualification,
                profilePicture := url }
            let payload : Claims :=
              { userId := some user.id, role := some user.role, email := some user.email }
            ⟨201, "User registered successfully",
              some (jwtSign payload (envKey jwtSecret) hours24 now), db ++ [user]⟩

/-! ## Theorems -/

/-- C6: verifying a token immediately after issuing it returns the issued
claims unchanged — in particular the principal identifier, role, email and
the pending-second-factor marker, since the whole payload is returned —
for every claims object, signing key and positive TTL. -/
theorem verifyAfterIssueRoundTrip (c : Claims) (key : String) (ttl now : Nat)
    (h : 0 < ttl) :
    jwtVerify (.signed (jwtSign c key ttl now)) key now = .ok c := by
  have hlt : ¬ now + ttl ≤ now := by omega
  simp [jwtVerify, jwtSign, hlt]

/-- Concrete run of the round trip at TTL 300. -/
theorem verifyAfterIssueRoundTripWitness :
    0 < 300 ∧
    jwtVerify
        (.signed (jwtSign
          { userId := some "u1", role := some "admin", email := some "a@x.com" }
          "121212" 300 0))
        "121212" 0
      = .ok { userId := some "u1", role := some "admin", email := some "a@x.com" } :=
  ⟨by decide,
   verifyAfterIssueRoundTrip
     { userId := some "u1", role := some "admin", email := some "a@x.com" }
     "121212" 300 0 (by decide)⟩

/-- C4: when the JWT_SECRET configuration is absent (or empty, which JS
treats as falsy) every embedded token site signs or verifies with the
hardcoded default key 121212 — each handler behaves exactly as if the
secret had been configured to 121212 — and the 2FA-enable verification
endpoint ignores the configuration entirely: its behaviour is the same
for every configured secret, it rejects a token signed with the
configured secret, and accepts the jwt step for a token signed with the
literal 121212 even when a different secret is configured. -/
theorem defaultSigningKeyFallback :
    envKey none = "121212" ∧ envKey (some "") = "121212" ∧
    (∀ db email pw now,
      authLogin db email pw none now = authLogin db email pw (some "121212") now) ∧
    (∀ db email pw now,
      studentLogin db email pw none now = studentLogin db email pw (some "121212") now) ∧
    (∀ roles tok now,
      checkRole roles tok none now = checkRole roles tok (some "121212") now) ∧
    (∀ tok now,
      isAuthenticated tok none now = isAuthenticated tok (some "121212") now) ∧
    (∀ tok now,
      isTeacher tok none now = isTeacher tok (some "121212") now) ∧
    (∀ tok now,
      isAdmin tok none now = isAdmin tok (some "121212") now) ∧
    (∀ db tt code totp now,
      verify2fa db tt code totp none now = verify2fa db tt code totp (some "121212") now) ∧
    (∀ db input jl jloc up now nid,
      registerUser db input jl jloc up none now nid
        = registerUser db input jl jloc up (some "121212") now nid) ∧
    (∀ db tok code totp e₁ e₂ now,
      twoFaVerifyEnable db tok code totp e₁ now = twoFaVerifyEnable db tok code totp e₂ now) ∧
    twoFaVerifyEnable [] (some (.signed (jwtSign {} "mysecret" hours24 0)))
        (some "1") (fun _ _ => true) (some "mysecret") 1
      = ⟨500, "Error enabling 2FA"⟩ ∧
    twoFaVerifyEnable [] (some (.signed (jwtSign {} "121212" hours24 0)))
        (some "1") (fun _ _ => true) (some "mysecret") 1
      = ⟨404, "User not found"⟩ :=
  ⟨rfl, rfl, fun _ _ _ _ => rfl, fun _ _ _ _ => rfl, fun _ _ _ => rfl,
   fun _ _ => rfl, fun _ _ => rfl, fun _ _ => rfl,
   fun _ _ _ _ _ => rfl, fun _ _ _ _ _ _ _ => rfl,
   fun _ _ _ _ _ _ _ => rfl, by decide, by decide⟩

/-- A token, expired for five minutes at clock time 600, as presented to
the gates. -/
def expiredAdminToken : JwtInput :=
  .signed (jwtSign
    { userId := some "u1", role := some "admin", email := some "a@x.com" }
    "121212" minutes5 0)

/-- C3 counterexample: this token is genuinely expired (jwtVerify reports
the expired kind), yet the isAuthenticated gate answers with the
malformed-token message Invalid token, not the expired message — only
checkRole branches distinctly.  So not every authorization gate branches
on the two kinds distinctly. -/
theorem expiredTokenGateCollapse :
    jwtVerify expiredAdminToken (envKey none) 600 = .error .tokenExpiredError ∧
    isAuthenticated (some expiredAdminToken) none 600 = .respond 401 "Invalid token" ∧
    isTeacher (some expiredAdminToken) none 600 = .respond 401 "Invalid token" ∧
    checkRole ["admin"] (some expiredAdminToken) none 600 = .respond 401 "Token expired" := by
  decide

/-- C3 amended: jwtVerify itself does fail with the two distinct kinds
(malformed input or wrong key gives the JsonWebTokenError kind, an
in-date signature past its TTL gives the TokenExpiredError kind), and the
checkRole gate branches on them distinctly (401 Invalid token versus 401
Token expired); but the isAuthenticated / isTeacher / isAdmin gates
collapse every verification failure, expired included, to 401 Invalid
token. -/
theorem verifyErrorKindsAndGates :
    (∀ raw key now, jwtVerify (.malformed raw) key now = .error .jsonWebTokenError) ∧
    (∀ (t : SignedToken) key now, t.key ≠ key →
      jwtVerify (.signed t) key now = .error .jsonWebTokenError) ∧
    (∀ (t : SignedToken) key now, t.key = key → t.exp ≤ now →
      jwtVerify (.signed t) key now = .error .tokenExpiredError) ∧
    (∀ roles tok env now, jwtVerify tok (envKey env) now = .error .jsonWebTokenError →
      checkRole roles (some tok) env now = .respond 401 "Invalid token") ∧
    (∀ roles tok env now, jwtVerify tok (envKey env) now = .error .tokenExpiredError →
      checkRole roles (some tok) env now = .respond 401 "Token expired") ∧
    (∀ tok env now e, jwtVerify tok (envKey env) now = .error e →
      isAuthenticated (some tok) env now = .respond 401 "Invalid token") ∧
    (∀ tok env now e, jwtVerify tok (envKey env) now = .error e →
      isTeacher (some tok) env now = .respond 401 "Invalid token") ∧
    (∀ tok env now e, jwtVerify tok (envKey env) now = .error e →
      isAdmin (some tok) env now = .respond 401 "Invalid token") := by
  refine ⟨fun _ _ _ => rfl, ?_, ?_, ?_, ?_, ?_, ?_, ?_⟩
  · intro t key now hk
    simp [jwtVerify, hk]
  · intro t key now hk hexp
    simp [jwtVerify, hk, hexp]
  · intro roles tok env now h
    simp [checkRole, h]
  · intro roles tok env now h
    simp [checkRole, h]
  · intro tok env now e h
    simp [isAuthenticated, h]
  · intro tok env now e h
    simp [isTeacher, h]
  · intro tok env now e h
    simp [isAdmin, h]

/-- Concrete runs of each part of the amended statement. -/
theorem verifyErrorKindsAndGatesWitness :
    jwtVerify (.malformed "garbage") "121212" 0 = .error .jsonWebTokenError ∧
    jwtVerify expiredAdminToken "wrongkey" 0 = .error .jsonWebTokenError ∧
    jwtVerify expiredAdminToken "121212" 600 = .error .tokenExpiredError ∧
    checkRole ["admin"] (some (.malformed "garbage")) none 0 = .respond 401 "Invalid token" ∧
    checkRole ["admin"] (some expiredAdminToken) none 600 = .respond 401 "Token expired" ∧
    isAuthenticated (some expiredAdminToken) none 600 = .respond 401 "Invalid token" ∧
    isTeacher (some expiredAdminToken) none 600 = .respond 401 "Invalid token" ∧
    isAdmin (some expiredAdminToken) none 600 = .respond 401 "Invalid token" :=
  ⟨verifyErrorKindsAndGates.1 "garbage" "121212" 0,
   verifyErrorKindsAndGates.2.1 _ "wrongkey" 0 (by decide),
   verifyErrorKindsAndGates.2.2.1 _ "121212" 600 (by decide) (by decide),
   verifyErrorKindsAndGates.2.2.2.1 ["admin"] _ none 0 (by decide),
   verifyErrorKindsAndGates.2.2.2.2.1 ["admin"] _ none 600 (by decide),
   verifyErrorKindsAndGates.2.2.2.2.2.1 _ none 600 .tokenExpiredError (by decide),
   verifyErrorKindsAndGates.2.2.2.2.2.2.1 _ none 600 .tokenExpiredError (by decide),
   verifyErrorKindsAndGates.2.2.2.2.2.2.2 _ none 600 .tokenExpiredError (by decide)⟩

/-- C9: through a role-restricted gate with a validly verified token, a
decoded role outside the required set is rejected with 403 and a message
naming the acceptable roles, while a member role proceeds with the
resolved identity (id resolved from the userId-or-studentId claim, role,
email) attached; likewise for the teacher-only gate. -/
theorem roleGateOutcomes :
    (∀ (roles : List String) (tok : JwtInput) (env : Option String) (now : Nat)
        (decoded : Claims),
      jwtVerify tok (envKey env) now = .ok decoded →
      (roleMember roles decoded.role = false →
        checkRole roles (some tok) env now =
          .respond 403 ("Access denied. Required role: " ++ String.intercalate " or " roles)) ∧
      (roleMember roles decoded.role = true →
        checkRole roles (some tok) env now = .next (resolvedUser decoded))) ∧
    (∀ (tok : JwtInput) (env : Option String) (now : Nat) (decoded : Claims),
      jwtVerify tok (envKey env) now = .ok decoded →
      (decoded.role ≠ some "teacher" →
        isTeacher (some tok) env now = .respond 403 "Teacher access required") ∧
      (decoded.role = some "teacher" →
        isTeacher (some tok) env now = .next (resolvedUser decoded))) := by
  constructor
  · intro roles tok env now decoded h
    constructor
    · intro hmem
      simp [checkRole, h, hmem]
    · intro hmem
      simp [checkRole, h, hmem]
  · intro tok env now decoded h
    constructor
    · intro hr
      simp [isTeacher, h, hr]
    · intro hr
      simp [isTeacher, h, hr]

/-- Concrete runs of the role gate: a maintenance_office token at an
admin-only gate is rejected 403 naming admin, an admin token proceeds
with the resolved identity. -/
theorem roleGateOutcomesWitness :
    checkRole ["admin"]
        (some (.signed (jwtSign
          { userId := some "u1", role := some "maintenance_office", email := some "m@x.com" }
          "121212" hours24 0))) none 10
      = .respond 403 "Access denied. Required role: admin" ∧
    checkRole ["admin"]
        (some (.signed (jwtSign
          { userId := some "u2", role := some "admin", email := some "a@x.com" }
          "121212" hours24 0))) none 10
      = .next { id := some "u2", role := some "admin", email := some "a@x.com" } :=
  ⟨(roleGateOutcomes.1 ["admin"]
      (.signed (jwtSign
        { userId := some "u1", role := some "maintenance_office", email := some "m@x.com" }
        "121212" hours24 0)) none 10
      { userId := some "u1", role := some "maintenance_office", email := some "m@x.com" }
      (by decide)).1 (by decide),
   (roleGateOutcomes.1 ["admin"]
      (.signed (jwtSign
        { userId := some "u2", role := some "admin", email := some "a@x.com" }
        "121212" hours24 0)) none 10
      { userId := some "u2", role := some "admin", email := some "a@x.com" }
      (by decide)).2 (by decide)⟩

/-- C10: a student login with the correct email and password is gated on
the stored account status via canAccessAccount: any status other than
Enrolled (Pending, Eliminated or Suspended) yields the 403
account-not-active response with no token, and Enrolled yields the 200
response whose token is the 24-hour student session token. -/
theorem studentLoginStatusGate (db : List Student) (email pw : String)
    (env : Option String) (now : Nat) (s : Student)
    (hfind : db.find? (fun x => x.email == email) = some s)
    (hpw : bcryptCompare pw s.password = true) :
    (s.status ≠ .enrolled →
      studentLogin db email pw env now =
        ⟨403, "Your account is not active. Please contact the administration for more information.", none⟩) ∧
    (s.status = .enrolled →
      studentLogin db email pw env now =
        ⟨200, "Login successful",
          some (jwtSign { studentId := some s.id, role := some "student" }
            (envKey env) hours24 now)⟩) := by
  constructor
  · intro hst
    have hacc : canAccessAccount s.status = false := by
      cases hs : s.status <;> simp_all [canAccessAccount]
    simp [studentLogin, hfind, hpw, hacc]
  · intro hst
    simp [studentLogin, hfind, hpw, canAccessAccount, hst]

/-- Concrete runs of the status gate: a Pending student with the right
password is refused 403 with no token; the same student Enrolled gets the
24-hour token. -/
theorem studentLoginStatusGateWitness :
    studentLogin
        [{ id := "s1", firstName := "A", lastName := "B", email := "a@x.com",
           password := bcryptHash "pw", cnic := "1234567890123", phoneNumber := "1",
           gender := "male", address := none, guardianName := "G", guardianPhone := "2",
           guardianRelation := "father", enrolledCourses := [], status := .pending,
           profilePicture := "", rollId := "100001" }]
        "a@x.com" "pw" none 0
      = ⟨403, "Your account is not active. Please contact the administration for more information.", none⟩ ∧
    studentLogin
        [{ id := "s1", firstName := "A", lastName := "B", email := "a@x.com",
           password := bcryptHash "pw", cnic := "1234567890123", phoneNumber := "1",
           gender := "male", address := none, guardianName := "G", guardianPhone := "2",
           guardianRelation := "father", enrolledCourses := [], status := .enrolled,
           profilePicture := "", rollId := "100001" }]
        "a@x.com" "pw" none 0
      = ⟨200, "Login successful",
          some (jwtSign { studentId := some "s1", role := some "student" }
            (envKey none) hours24 0)⟩ :=
  ⟨(studentLoginStatusGate _ "a@x.com" "pw" none 0
      { id := "s1", firstName := "A", lastName := "B", email := "a@x.com",
        password := bcryptHash "pw", cnic := "1234567890123", phoneNumber := "1",
        gender := "male", address := none, guardianName := "G", guardianPhone := "2",
        guardianRelation := "father", enrolledCourses := [], status := .pending,
        profilePicture := "", rollId := "100001" }
      (by decide) (by decide)).1 (by decide),
   (studentLoginStatusGate _ "a@x.com" "pw" none 0
      { id := "s1", firstName := "A", lastName := "B", email := "a@x.com",
        password := bcryptHash "pw", cnic := "1234567890123", phoneNumber := "1",
        gender := "male", address := none, guardianName := "G", guardianPhone := "2",
        guardianRelation := "father", enrolledCourses := [], status := .enrolled,
        profilePicture := "", rollId := "100001" }
      (by decide) (by decide)).2 rfl⟩

/-- C2: for a user with twoFactorEnabled, login with the correct password
returns exactly the 200 pending response — a 5-minute temporary token
carrying requires2FA and NO full token; and the verify-2fa endpoint
returns a full token only when the pending token verifies, its decoded
claims carry requires2FA, the user is found and the submitted code checks
against the stored secret — and that token is the 24-hour session token
without the pending marker (every failure path carries no token). -/
theorem twoFactorLoginProtocol :
    (∀ (db : List User) (email pw : String) (env : Option String) (now : Nat) (u : User),
      db.find? (fun x => x.email == email) = some u →
      u.twoFactorEnabled = true →
      bcryptCompare pw u.password = true →
      authLogin db email pw env now =
        ⟨200, "2FA verification required", true,
          some (jwtSign
            { userId := some u.id, role := some u.role, email := some u.email,
              requires2FA := true }
            (envKey env) minutes5 now),
          none⟩) ∧
    (∀ (db : List User) (tt : Option JwtInput) (code : Option String)
        (totp : Option String → String → Bool) (env : Option String) (now : Nat)
        (t : SignedToken),
      (verify2fa db tt code totp env now).token = some t →
      ∃ tok c decoded u, tt = some tok ∧ code = some c ∧
        jwtVerify tok (envKey env) now = .ok decoded ∧
        decoded.requires2FA = true ∧
        findUserById db decoded.userId = some u ∧
        totp u.twoFactorSecret c = true ∧
        t = jwtSign
          { userId := some u.id, role := some u.role, email := some u.email }
          (envKey env) hours24 now ∧
        t.exp = now + hours24 ∧ t.payload.requires2FA = false) := by
  constructor
  · intro db email pw env now u hfind h2fa hpw
    simp [authLogin, hfind, hpw, h2fa]
  · intro db tt code totp env now t h
    cases tt with
    | none => simp [verify2fa] at h
    | some tok =>
      cases code with
      | none => simp [verify2fa] at h
      | some c =>
        by_cases hc : c = ""
        · simp [verify2fa, hc] at h
        · cases hv : jwtVerify tok (envKey env) now with
          | error e => simp [verify2fa, hc, hv] at h
          | ok decoded =>
            by_cases h2 : decoded.requires2FA = true
            · cases hu : findUserById db decoded.userId with
              | none => simp [verify2fa, hc, hv, h2, hu] at h
              | some user =>
                by_cases htc : totp user.twoFactorSecret c = true
                · simp [verify2fa, hc, hv, h2, hu, htc] at h
                  exact ⟨tok, c, decoded, user, rfl, rfl, hv, h2, hu, htc,
                    h.symm, by rw [← h]; rfl, by rw [← h]; rfl⟩
                · simp [verify2fa, hc, hv, h2, hu, htc] at h
            · simp [verify2fa, hc, hv, h2] at h

/-- A demonstration user with two-factor authentication enabled. -/
def demoUser : User :=
  { id := "u1", firstName := "A", lastName := "B", email := "a@x.com",
    password := bcryptHash "pw", cnic := "1234567890123", phoneNumber := "1",
    role := "user", twoFactorSecret := some "JBSWY3DPEHPK3PXP",
    twoFactorEnabled := true }

/-- The pending token that login issues for demoUser at time 0. -/
def demoPendingToken : SignedToken :=
  jwtSign
    { userId := some "u1", role := some "user", email := some "a@x.com",
      requires2FA := true }
    "121212" minutes5 0

/-- Concrete runs of the 2FA protocol: login for the enabled demoUser
yields only the pending token, and verify-2fa at a concrete accepted run
satisfies all the conditions of the protocol theorem. -/
theorem twoFactorLoginProtocolWitness :
    authLogin [demoUser] "a@x.com" "pw" none 0 =
      ⟨200, "2FA verification required", true, some demoPendingToken, none⟩ ∧
    (∃ tok c decoded u,
      some (JwtInput.signed demoPendingToken) = some tok ∧
      (some "123456" : Option String) = some c ∧
      jwtVerify tok (envKey none) 60 = .ok decoded ∧
      decoded.requires2FA = true ∧
      findUserById [demoUser] decoded.userId = some u ∧
      (fun (_ : Option String) (_ : String) => true) u.twoFactorSecret c = true ∧
      jwtSign
          { userId := some "u1", role := some "user", email := some "a@x.com" }
          "121212" hours24 60
        = jwtSign
          { userId := some u.id, role := some u.role, email := some u.email }
          (envKey none) hours24 60 ∧
      (jwtSign
          { userId := some "u1", role := some "user", email := some "a@x.com" }
          "121212" hours24 60).exp = 60 + hours24 ∧
      (jwtSign
          { userId := some "u1", role := some "user", email := some "a@x.com" }
          "121212" hours24 60).payload.requires2FA = false) :=
  ⟨twoFactorLoginProtocol.1 [demoUser] "a@x.com" "pw" none 0 demoUser
      (by decide) (by decide) (by decide),
   twoFactorLoginProtocol.2 [demoUser] (some (.signed demoPendingToken))
      (some "123456") (fun _ _ => true) none 60
      (jwtSign
        { userId := some "u1", role := some "user", email := some "a@x.com" }
        "121212" hours24 60)
      (by decide)⟩

/-- C1: the registration outcome — HTTP response and stored collection —
is identical whatever the ID-card/email side effects do (PDF rendering,
QR rendering, SMTP verification or send may each fail); and whenever the
flow reaches the save (the core returns a student), the response is the
201 success body built from the saved student and the student is
persisted, for every side-effect behaviour. -/
theorem idCardFailuresPreserveOutcome
    (db : List Student) (courseDb : List String) (input : StudentRegInput)
    (jsonAddr : String → Option Address) (jsonCourses : String → Option (List String))
    (uploadImg : ImageFile → Except String String) (compress : String → String)
    (fx : SideFx) (now : Nat) (newId rollId : String) :
    ((registerStudent db courseDb input jsonAddr jsonCourses uploadImg compress
        fx now newId rollId).response
      = (registerStudent db courseDb input jsonAddr jsonCourses uploadImg compress
        sideFxOk now newId rollId).response ∧
     (registerStudent db courseDb input jsonAddr jsonCourses uploadImg compress
        fx now newId rollId).newDb
      = (registerStudent db courseDb input jsonAddr jsonCourses uploadImg compress
        sideFxOk now newId rollId).newDb) ∧
    (∀ s : Student,
      registerStudentCore db courseDb input jsonAddr jsonCourses uploadImg compress
          now newId rollId = .ok s →
      (registerStudent db courseDb input jsonAddr jsonCourses uploadImg compress
          fx now newId rollId).response
        = ⟨201, studentRegSuccessMsg, some (studentView s)⟩ ∧
      (registerStudent db courseDb input jsonAddr jsonCourses uploadImg compress
          fx now newId rollId).newDb = db ++ [s]) := by
  constructor
  · unfold registerStudent
    cases registerStudentCore db courseDb input jsonAddr jsonCourses uploadImg compress
        now newId rollId <;> simp
  · intro s hs
    simp [registerStudent, hs]

/-- A concrete registration body used by the side-effect run below. -/
def regInputW : StudentRegInput :=
  { firstName := "A", lastName := "B", email := "a@x.com", password := "pw",
    cnic := "1234567890123", phoneNumber := "1", gender := "male",
    address := .missing, guardianName := "G", guardianPhone := "2",
    guardianRelation := "father", enrolledCourses := .missing, file := none }

/-- The student document the concrete registration saves. -/
def studentW : Student :=
  { id := "s1", firstName := "A", lastName := "B", email := "a@x.com",
    password := bcryptHash "pw", cnic := "1234567890123", phoneNumber := "1",
    gender := "male", address := none, guardianName := "G", guardianPhone := "2",
    guardianRelation := "father", enrolledCourses := [], status := .pending,
    profilePicture := "", rollId := "100001" }

/-- A side-effect run whose mail dispatch fails. -/
def fxSendFail : SideFx :=
  { pdfRender := .ok (), qrRender := .ok "qr", smtpVerify := .ok (),
    sendMailResult := .error "smtp down" }

/-- Concrete run: even with the mail dispatch failing, the registration
still answers 201 with the saved student and the record is persisted. -/
theorem idCardFailuresPreserveOutcomeWitness :
    registerStudentCore [] [] regInputW (fun _ => none) (fun _ => none)
        (fun _ => .error "unused") (fun u => u) 0 "s1" "100001" = .ok studentW ∧
    (registerStudent [] [] regInputW (fun _ => none) (fun _ => none)
        (fun _ => .error "unused") (fun u => u) fxSendFail 0 "s1" "100001").response
      = ⟨201, studentRegSuccessMsg, some (studentView studentW)⟩ ∧
    (registerStudent [] [] regInputW (fun _ => none) (fun _ => none)
        (fun _ => .error "unused") (fun u => u) fxSendFail 0 "s1" "100001").newDb
      = [] ++ [studentW] :=
  ⟨by decide,
   (idCardFailuresPreserveOutcome [] [] regInputW (fun _ => none) (fun _ => none)
      (fun _ => .error "unused") (fun u => u) fxSendFail 0 "s1" "100001").2
      studentW (by decide)⟩

/-- C7: when the address field arrives as a string that the JSON parser
rejects, the handler substitutes the all-empty address object (every
field the empty string) and the registration behaves exactly as if that
empty address object had been submitted — it does not fail on the
field. -/
theorem badAddressDefaultsToEmpty
    (db : List Student) (courseDb : List String) (input : StudentRegInput)
    (jsonAddr : String → Option Address) (jsonCourses : String → Option (List String))
    (uploadImg : ImageFile → Except String String) (compress : String → String)
    (fx : SideFx) (now : Nat) (newId rollId : String)
    (s : String) (hstr : input.address = .str s) (hbad : jsonAddr s = none) :
    parseAddressField jsonAddr input.address = some emptyAddress ∧
    registerStudent db courseDb input jsonAddr jsonCourses uploadImg compress
        fx now newId rollId
      = registerStudent db courseDb { input with address := .val emptyAddress }
        jsonAddr jsonCourses uploadImg compress fx now newId rollId := by
  have hp : parseAddressField jsonAddr input.address = some emptyAddress := by
    rw [hstr]
    simp [parseAddressField, hbad]
  refine ⟨hp, ?_⟩
  simp only [registerStudent, registerStudentCore, hstr, parseAddressField, hbad]

/-- Concrete run: registering with the unparseable address string
"\x7bbad json" succeeds with the address defaulted to all-empty fields. -/
theorem badAddressDefaultsToEmptyWitness :
    parseAddressField (fun _ => none) (JsField.str "\x7bbad json") = some emptyAddress ∧
    registerStudent [] [] { regInputW with address := .str "\x7bbad json" }
        (fun _ => none) (fun _ => none) (fun _ => .error "unused") (fun u => u)
        sideFxOk 0 "s1" "100001"
      = registerStudent [] [] { regInputW with address := .val emptyAddress }
        (fun _ => none) (fun _ => none) (fun _ => .error "unused") (fun u => u)
        sideFxOk 0 "s1" "100001" :=
  badAddressDefaultsToEmpty [] [] { regInputW with address := .str "\x7bbad json" }
    (fun _ => none) (fun _ => none) (fun _ => .error "unused") (fun u => u)
    sideFxOk 0 "s1" "100001" "\x7bbad json" rfl rfl

/-- C8: if an image file was submitted and the upload adapter fails, the
whole registration fails with an error response (the handler's 400/500
family) and no record is created — the collection is unchanged, because
the upload runs strictly before the save — for the student flow and the
user flow alike (the user flow also issues no token). -/
theorem uploadFailureFailsRegistration :
    (∀ (db : List Student) (courseDb : List String) (input : StudentRegInput)
        (jsonAddr : String → Option Address)
        (jsonCourses : String → Option (List String))
        (uploadImg : ImageFile → Except String String) (compress : String → String)
        (fx : SideFx) (now : Nat) (newId rollId : String) (f : ImageFile) (e : String),
      input.file = some f → uploadImg f = .error e →
      ((registerStudent db courseDb input jsonAddr jsonCourses uploadImg compress
          fx now newId rollId).response.status = 400 ∨
       (registerStudent db courseDb input jsonAddr jsonCourses uploadImg compress
          fx now newId rollId).response.status = 500) ∧
      (registerStudent db courseDb input jsonAddr jsonCourses uploadImg compress
          fx now newId rollId).newDb = db) ∧
    (∀ (db : List User) (input : UserRegInput)
        (jsonList : String → Option (List String)) (jsonLoc : String → Option Location)
        (uploadImg : ImageFile → Except String String) (env : Option String)
        (now : Nat) (newId : String) (f : ImageFile) (e : String),
      input.file = some f → uploadImg f = .error e →
      ((registerUser db input jsonList jsonLoc uploadImg env now newId).status = 400 ∨
       (registerUser db input jsonList jsonLoc uploadImg env now newId).status = 500) ∧
      (registerUser db input jsonList jsonLoc uploadImg env now newId).newDb = db ∧
      (registerUser db input jsonList jsonLoc uploadImg env now newId).token = none) := by
  constructor
  · intro db courseDb input jsonAddr jsonCourses uploadImg compress fx now newId rollId f e hf he
    cases hpc : parseCoursesStep courseDb jsonCourses input.enrolledCourses with
    | error msg => simp [registerStudent, registerStudentCore, hpc]
    | ok cs =>
      cases hd : dupStudent db input.email input.cnic with
      | some s => simp [registerStudent, registerStudentCore, hpc, hd]
      | none => simp [registerStudent, registerStudentCore, hpc, hd, hf, he]
  · intro db input jsonList jsonLoc uploadImg env now newId f e hf he
    cases h1 : parseStrictField jsonList input.expertise with
    | error m => simp [registerUser, h1]
    | ok ev =>
      cases h2 : parseStrictField jsonList input.languages with
      | error m => simp [registerUser, h1, h2]
      | ok lv =>
        cases h3 : parseStrictField jsonLoc input.location with
        | error m => simp [registerUser, h1, h2, h3]
        | ok locv =>
          cases hd : dupUser db input.email input.cnic with
          | some u => simp [registerUser, h1, h2, h3, hd]
          | none => simp [registerUser, h1, h2, h3, hd, hf, he]

/-- Concrete run: a registration with an image whose upload fails answers
500 and saves nothing, in both flows. -/
theorem uploadFailureFailsRegistrationWitness :
    ((registerStudent [] [] { regInputW with file := some ⟨[1], "image/png"⟩ }
        (fun _ => none) (fun _ => none) (fun _ => .error "boom") (fun u => u)
        sideFxOk 0 "s1" "100001").response.status = 400 ∨
     (registerStudent [] [] { regInputW with file := some ⟨[1], "image/png"⟩ }
        (fun _ => none) (fun _ => none) (fun _ => .error "boom") (fun u => u)
        sideFxOk 0 "s1" "100001").response.status = 500) ∧
    (registerStudent [] [] { regInputW with file := some ⟨[1], "image/png"⟩ }
        (fun _ => none) (fun _ => none) (fun _ => .error "boom") (fun u => u)
        sideFxOk 0 "s1" "100001").newDb = [] ∧
    ((registerUser []
        { firstName := "A", lastName := "B", email := "a@x.com", password := "pw",
          cnic := "1234567890123", phoneNumber := "1", expertise := .missing,
          languages := .missing, location := .missing, qualification := "",
          role := none, file := some ⟨[1], "image/png"⟩ }
        (fun _ => none) (fun _ => none) (fun _ => .error "boom") none 0 "u9").status = 400 ∨
     (registerUser []
        { firstName := "A", lastName := "B", email := "a@x.com", password := "pw",
          cnic := "1234567890123", phoneNumber := "1", expertise := .missing,
          languages := .missing, location := .missing, qualification := "",
          role := none, file := some ⟨[1], "image/png"⟩ }
        (fun _ => none) (fun _ => none) (fun _ => .error "boom") none 0 "u9").status = 500) ∧
    (registerUser []
        { firstName := "A", lastName := "B", email := "a@x.com", password := "pw",
          cnic := "1234567890123", phoneNumber := "1", expertise := .missing,
          languages := .missing, location := .missing, qualification := "",
          role := none, file := some ⟨[1], "image/png"⟩ }
        (fun _ => none) (fun _ => none) (fun _ => .error "boom") none 0 "u9").newDb = [] :=
  ⟨(uploadFailureFailsRegistration.1 [] [] { regInputW with file := some ⟨[1], "image/png"⟩ }
      (fun _ => none) (fun _ => none) (fun _ => .error "boom") (fun u => u)
      sideFxOk 0 "s1" "100001" ⟨[1], "image/png"⟩ "boom" rfl rfl).1,
   (uploadFailureFailsRegistration.1 [] [] { regInputW with file := some ⟨[1], "image/png"⟩ }
      (fun _ => none) (fun _ => none) (fun _ => .error "boom") (fun u => u)
      sideFxOk 0 "s1" "100001" ⟨[1], "image/png"⟩ "boom" rfl rfl).2,
   (uploadFailureFailsRegistration.2 []
      { firstName := "A", lastName := "B", email := "a@x.com", password := "pw",
        cnic := "1234567890123", phoneNumber := "1", expertise := .missing,
        languages := .missing, location := .missing, qualification := "",
        role := none, file := some ⟨[1], "image/png"⟩ }
      (fun _ => none) (fun _ => none) (fun _ => .error "boom") none 0 "u9"
      ⟨[1], "image/png"⟩ "boom" rfl rfl).1,
   (uploadFailureFailsRegistration.2 []
      { firstName := "A", lastName := "B", email := "a@x.com", password := "pw",
        cnic := "1234567890123", phoneNumber := "1", expertise := .missing,
        languages := .missing, location := .missing, qualification := "",
        role := none, file := some ⟨[1], "image/png"⟩ }
      (fun _ => none) (fun _ => none) (fun _ => .error "boom") none 0 "u9"
      ⟨[1], "image/png"⟩ "boom" rfl rfl).2.1⟩

/-- C5: in both registration flows, when an existing principal already
holds the submitted email or CNIC, the registration is rejected with 400,
no record is created, and the message names a field that genuinely
collided: the email message exactly when the found record's email matches,
otherwise the CNIC message with the found record's CNIC matching — never a
generic duplicate message. -/
theorem duplicateIdentityNamesCollidingField :
    (∀ (db : List Student) (courseDb : List String) (input : StudentRegInput)
        (jsonAddr : String → Option Address)
        (jsonCourses : String → Option (List String))
        (uploadImg : ImageFile → Except String String) (compress : String → String)
        (fx : SideFx) (now : Nat) (newId rollId : String) (s : Student)
        (cs : List String),
      parseCoursesStep courseDb jsonCourses input.enrolledCourses = .ok cs →
      dupStudent db input.email input.cnic = some s →
      (registerStudent db courseDb input jsonAddr jsonCourses uploadImg compress
          fx now newId rollId).response.status = 400 ∧
      (registerStudent db courseDb input jsonAddr jsonCourses uploadImg compress
          fx now newId rollId).newDb = db ∧
      (((registerStudent db courseDb input jsonAddr jsonCourses uploadImg compress
            fx now newId rollId).response.message = "Email already registered" ∧
          s.email = input.email) ∨
       ((registerStudent db courseDb input jsonAddr jsonCourses uploadImg compress
            fx now newId rollId).response.message = "CNIC already registered" ∧
          s.cnic = input.cnic ∧ s.email ≠ input.email))) ∧
    (∀ (db : List User) (input : UserRegInput)
        (jsonList : String → Option (List String)) (jsonLoc : String → Option Location)
        (uploadImg : ImageFile → Except String String) (env : Option String)
        (now : Nat) (newId : String) (u : User) (ev lv : Option (List String))
        (locv : Option Location),
      parseStrictField jsonList input.expertise = .ok ev →
      parseStrictField jsonList input.languages = .ok lv →
      parseStrictField jsonLoc input.location = .ok locv →
      dupUser db input.email input.cnic = some u →
      (registerUser db input jsonList jsonLoc uploadImg env now newId).status = 400 ∧
      (registerUser db input jsonList jsonLoc uploadImg env now newId).newDb = db ∧
      (registerUser db input jsonList jsonLoc uploadImg env now newId).token = none ∧
      (((registerUser db input jsonList jsonLoc uploadImg env now newId).message
            = "Email already registered" ∧ u.email = input.email) ∨
       ((registerUser db input jsonList jsonLoc uploadImg env now newId).message
            = "CNIC already registered" ∧ u.cnic = input.cnic ∧ u.email ≠ input.email))) := by
  constructor
  · intro db courseDb input jsonAddr jsonCourses uploadImg compress fx now newId rollId
      s cs hpc hdup
    have hdupL : db.find? (fun x => x.email == input.email || x.cnic == input.cnic)
        = some s := hdup
    have hps0 := List.find?_some hdupL
    have hps : s.email = input.email ∨ s.cnic = input.cnic := by
      simpa [Bool.or_eq_true, beq_iff_eq] using hps0
    refine ⟨by simp [registerStudent, registerStudentCore, hpc, hdup],
      by simp [registerStudent, registerStudentCore, hpc, hdup], ?_⟩
    by_cases hem : s.email = input.email
    · exact Or.inl ⟨by simp [registerStudent, registerStudentCore, hpc, hdup, hem], hem⟩
    · have hcn : s.cnic = input.cnic := hps.resolve_left hem
      exact Or.inr ⟨by simp [registerStudent, registerStudentCore, hpc, hdup, hem],
        hcn, hem⟩
  · intro db input jsonList jsonLoc uploadImg env now newId u ev lv locv h1 h2 h3 hdup
    have hdupL : db.find? (fun x => x.email == input.email || x.cnic == input.cnic)
        = some u := hdup
    have hps0 := List.find?_some hdupL
    have hps : u.email = input.email ∨ u.cnic = input.cnic := by
      simpa [Bool.or_eq_true, beq_iff_eq] using hps0
    refine ⟨by simp [registerUser, h1, h2, h3, hdup],
      by simp [registerUser, h1, h2, h3, hdup],
      by simp [registerUser, h1, h2, h3, hdup], ?_⟩
    by_cases hem : u.email = input.email
    · exact Or.inl ⟨by simp [registerUser, h1, h2, h3, hdup, hem], hem⟩
    · have hcn : u.cnic = input.cnic := hps.resolve_left hem
      exact Or.inr ⟨by simp [registerUser, h1, h2, h3, hdup, hem], hcn, hem⟩

/-- A student already registered with the email a@x.com. -/
def existingStudentW : Student :=
  { studentW with id := "s0", cnic := "9999999999999", rollId := "100000" }

/-- A user already registered with the CNIC 1234567890123. -/
def existingUserW : User :=
  { id := "u0", firstName := "E", lastName := "F", email := "other@x.com",
    password := bcryptHash "pw2", cnic := "1234567890123", phoneNumber := "3",
    role := "user" }

/-- Concrete runs: re-registering the email a@x.com is refused 400 naming
the email field; registering a user with an already-registered CNIC (and
a fresh email) is refused 400 naming the CNIC field; neither creates a
record. -/
theorem duplicateIdentityNamesCollidingFieldWitness :
    ((registerStudent [existingStudentW] [] regInputW (fun _ => none) (fun _ => none)
        (fun _ => .error "unused") (fun v => v) sideFxOk 0 "s1" "100001").response.status
        = 400 ∧
      (registerStudent [existingStudentW] [] regInputW (fun _ => none) (fun _ => none)
        (fun _ => .error "unused") (fun v => v) sideFxOk 0 "s1" "100001").newDb
        = [existingStudentW] ∧
      (((registerStudent [existingStudentW] [] regInputW (fun _ => none) (fun _ => none)
          (fun _ => .error "unused") (fun v => v) sideFxOk 0 "s1" "100001").response.message
            = "Email already registered" ∧ existingStudentW.email = regInputW.email) ∨
       ((registerStudent [existingStudentW] [] regInputW (fun _ => none) (fun _ => none)
          (fun _ => .error "unused") (fun v => v) sideFxOk 0 "s1" "100001").response.message
            = "CNIC already registered" ∧ existingStudentW.cnic = regInputW.cnic ∧
          existingStudentW.email ≠ regInputW.email))) ∧
    ((registerUser [existingUserW]
        { firstName := "A", lastName := "B", email := "new@x.com", password := "pw",
          cnic := "1234567890123", phoneNumber := "1", expertise := .missing,
          languages := .missing, location := .missing, qualification := "",
          role := none, file := none }
        (fun _ => none) (fun _ => none) (fun _ => .error "unused") none 0 "u9").status
        = 400 ∧
      (registerUser [existingUserW]
        { firstName := "A", lastName := "B", email := "new@x.com", password := "pw",
          cnic := "1234567890123", phoneNumber := "1", expertise := .missing,
          languages := .missing, location := .missing, qualification := "",
          role := none, file := none }
        (fun _ => none) (fun _ => none) (fun _ => .error "unused") none 0 "u9").newDb
        = [existingUserW] ∧
      (registerUser [existingUserW]
        { firstName := "A", lastName := "B", email := "new@x.com", password := "pw",
          cnic := "1234567890123", phoneNumber := "1", expertise := .missing,
          languages := .missing, location := .missing, qualification := "",
          role := none, file := none }
        (fun _ => none) (fun _ => none) (fun _ => .error "unused") none 0 "u9").token
        = none ∧
      (((registerUser [existingUserW]
          { firstName := "A", lastName := "B", email := "new@x.com", password := "pw",
            cnic := "1234567890123", phoneNumber := "1", expertise := .missing,
            languages := .missing, location := .missing, qualification := "",
            role := none, file := none }
          (fun _ => none) (fun _ => none) (fun _ => .error "unused") none 0 "u9").message
            = "Email already registered" ∧ existingUserW.email = "new@x.com") ∨
       ((registerUser [existingUserW]
          { firstName := "A", lastName := "B", email := "new@x.com", password := "pw",
            cnic := "1234567890123", phoneNumber := "1", expertise := .missing,
            languages := .missing, location := .missing, qualification := "",
            role := none, file := none }
          (fun _ => none) (fun _ => none) (fun _ => .error "unused") none 0 "u9").message
            = "CNIC already registered" ∧ existingUserW.cnic = "1234567890123" ∧
          existingUserW.email ≠ "new@x.com"))) :=
  ⟨duplicateIdentityNamesCollidingField.1 [existingStudentW] [] regInputW
      (fun _ => none) (fun _ => none) (fun _ => .error "unused") (fun v => v)
      sideFxOk 0 "s1" "100001" existingStudentW [] (by decide) (by decide),
   duplicateIdentityNamesCollidingField.2 [existingUserW]
      { firstName := "A", lastName := "B", email := "new@x.com", password := "pw",
        cnic := "1234567890123", phoneNumber := "1", expertise := .missing,
        languages := .missing, location := .missing, qualification := "",
        role := none, file := none }
      (fun _ => none) (fun _ => none) (fun _ => .error "unused") none 0 "u9"
      existingUserW none none none rfl rfl rfl (by decide)⟩

end Aaghaaz
